import Mathlib

/-!
Shallow embedding of the ChronoBank ledger core: the account state machine
(`app/patterns/behavioral/state.py`), the account model methods
(`app/models/account.py`), the transfer command (`app/patterns/behavioral/command.py`),
transaction reversal (`app/models/transaction.py`), the fraud scoring pipeline
(`app/services/fraud_detection.py`), the loan repayment strategies
(`app/patterns/behavioral/loan_strategy.py`, `app/models/loan.py`,
`app/services/loan_service.py`) and the investment engine
(`app/models/loan.py`, `app/services/investment_service.py`).

Modelling conventions: time balances are `Int` (Python ints); Python floats are
modelled as exact rationals (`ℚ`); Python `int(x)` truncation toward zero is
`intTrunc`; a raised exception caught by a service-level `db.session.rollback()`
is an `Except.error` that leaves the state unchanged.
-/

namespace ChronoBank

/-- Account status column: ACTIVE, OVERDRAWN, FROZEN. -/
inductive AccountStatus
  | active
  | overdrawn
  | frozen
deriving DecidableEq, Repr

/-- An account row together with its account type's `min_balance`. -/
structure Account where
  balance : Int
  status : AccountStatus
  minBalance : Int
deriving DecidableEq, Repr

/-- `ActiveState.deposit` from `state.py`: refuse non-positive amounts, else add. -/
def activeDeposit (a : Account) (amount : Int) : Bool × Account :=
  if amount ≤ 0 then (false, a)
  else (true, { a with balance := a.balance + amount })

/-- `OverdrawnState.deposit` from `state.py`: add, and flip back to ACTIVE when the
balance reaches the minimum balance. -/
def overdrawnDeposit (a : Account) (amount : Int) : Bool × Account :=
  if amount ≤ 0 then (false, a)
  else
    let b := a.balance + amount
    let st : AccountStatus := if b ≥ a.minBalance then .active else .overdrawn
    (true, { a with balance := b, status := st })

/-- `get_account_state(status).deposit` dispatch: FROZEN refuses all deposits. -/
def stateDeposit (a : Account) (amount : Int) : Bool × Account :=
  if a.status = .active then activeDeposit a amount
  else if a.status = .overdrawn then overdrawnDeposit a amount
  else (false, a)

/-- `ActiveState.withdraw` from `state.py`: refuse non-positive amounts and
amounts above the balance; drop to OVERDRAWN when the balance falls below the
minimum balance. -/
def activeWithdraw (a : Account) (amount : Int) : Bool × Account :=
  if amount ≤ 0 ∨ a.balance < amount then (false, a)
  else
    let b := a.balance - amount
    let st : AccountStatus := if b < a.minBalance then .overdrawn else a.status
    (true, { a with balance := b, status := st })

/-- `get_account_state(status).withdraw` dispatch: only ACTIVE may withdraw. -/
def stateWithdraw (a : Account) (amount : Int) : Bool × Account :=
  if a.status = .active then activeWithdraw a amount
  else (false, a)

/-- `ActiveState.transfer` from `state.py` for two distinct accounts: guard the
amount and balance, refuse a FROZEN destination, debit the source (possibly
dropping it to OVERDRAWN), then run the destination state's deposit; if that
deposit fails, roll the source debit back (restoring ACTIVE when applicable)
and report failure. -/
def activeTransfer (src dst : Account) (amount : Int) : Bool × Account × Account :=
  if amount ≤ 0 ∨ src.balance < amount then (false, src, dst)
  else if dst.status = .frozen then (false, src, dst)
  else
    let b := src.balance - amount
    let st1 : AccountStatus := if b < src.minBalance then .overdrawn else src.status
    let src1 : Account := { src with balance := b, status := st1 }
    let dep := stateDeposit dst amount
    if dep.1 then (true, src1, dep.2)
    else
      let b2 := src1.balance + amount
      let st2 : AccountStatus :=
        if src1.status = .overdrawn ∧ b2 ≥ src1.minBalance then .active else src1.status
      (false, { src1 with balance := b2, status := st2 }, dst)

/-- `get_account_state(status).transfer` dispatch: only ACTIVE may transfer out. -/
def stateTransfer (src dst : Account) (amount : Int) : Bool × Account × Account :=
  if src.status = .active then activeTransfer src dst amount
  else (false, src, dst)

/-- `ActiveState.transfer` when source and destination are the same ORM object
(same account id): the debit and the subsequent deposit act on one record, the
deposit dispatching on the status left by the debit. -/
def selfTransfer (a : Account) (amount : Int) : Bool × Account :=
  if a.status = .active then
    if amount ≤ 0 ∨ a.balance < amount then (false, a)
    else
      let b := a.balance - amount
      let st1 : AccountStatus := if b < a.minBalance then .overdrawn else a.status
      let a1 : Account := { a with balance := b, status := st1 }
      (true, (stateDeposit a1 amount).2)
  else (false, a)

/-- The bank: an assignment of accounts to account ids. -/
def Bank : Type := Nat → Account

/-- One ledger operation routed through the account state machine, as
`AccountService.deposit/withdraw/transfer` route them. -/
inductive LedgerOp
  | deposit (i : Nat) (amount : Int)
  | withdraw (i : Nat) (amount : Int)
  | transfer (i j : Nat) (amount : Int)

/-- Apply one ledger operation to the bank (failed operations leave the
account(s) unchanged, as the Python methods return `False` without mutating). -/
def ledgerStep (st : Bank) : LedgerOp → Bank
  | .deposit i amt => Function.update st i (stateDeposit (st i) amt).2
  | .withdraw i amt => Function.update st i (stateWithdraw (st i) amt).2
  | .transfer i j amt =>
    if i = j then Function.update st i (selfTransfer (st i) amt).2
    else
      let r := stateTransfer (st i) (st j) amt
      Function.update (Function.update st i r.2.1) j r.2.2

/-- Run a sequence of ledger operations. -/
def ledgerRun (st : Bank) : List LedgerOp → Bank
  | [] => st
  | op :: ops => ledgerRun (ledgerStep st op) ops

theorem stateDeposit_balance_nonneg (a : Account) (amt : Int) (h : 0 ≤ a.balance) :
    0 ≤ (stateDeposit a amt).2.balance := by
  unfold stateDeposit activeDeposit overdrawnDeposit
  split_ifs <;> simp_all <;> omega

theorem stateWithdraw_balance_nonneg (a : Account) (amt : Int) (h : 0 ≤ a.balance) :
    0 ≤ (stateWithdraw a amt).2.balance := by
  unfold stateWithdraw activeWithdraw
  split_ifs <;> simp_all <;> omega

theorem stateTransfer_balance_nonneg (src dst : Account) (amt : Int)
    (hs : 0 ≤ src.balance) (hd : 0 ≤ dst.balance) :
    0 ≤ (stateTransfer src dst amt).2.1.balance ∧
    0 ≤ (stateTransfer src dst amt).2.2.balance := by
  have hdep := stateDeposit_balance_nonneg dst amt hd
  unfold stateTransfer activeTransfer
  split_ifs <;> simp_all <;> split_ifs <;> simp_all <;> omega

theorem selfTransfer_balance_nonneg (a : Account) (amt : Int) (h : 0 ≤ a.balance) :
    0 ≤ (selfTransfer a amt).2.balance := by
  unfold selfTransfer
  split_ifs with h1 h2
  · simpa using h
  · refine stateDeposit_balance_nonneg _ amt ?_
    simp only []
    omega
  · simpa using h

theorem ledgerStep_nonneg (st : Bank) (h : ∀ i, 0 ≤ (st i).balance) (op : LedgerOp) :
    ∀ i, 0 ≤ (ledgerStep st op i).balance := by
  intro k
  cases op with
  | deposit i amt =>
    simp only [ledgerStep, Function.update_apply]
    split_ifs with hk
    · exact stateDeposit_balance_nonneg _ _ (h i)
    · exact h k
  | withdraw i amt =>
    simp only [ledgerStep, Function.update_apply]
    split_ifs with hk
    · exact stateWithdraw_balance_nonneg _ _ (h i)
    · exact h k
  | transfer i j amt =>
    by_cases hij : i = j
    · simp only [ledgerStep, if_pos hij, Function.update_apply]
      split_ifs with hk
      · exact selfTransfer_balance_nonneg _ _ (h i)
      · exact h k
    · have hmain := stateTransfer_balance_nonneg (st i) (st j) amt (h i) (h j)
      simp only [ledgerStep, if_neg hij, Function.update_apply]
      split_ifs with hk1 hk2
      · exact hmain.2
      · exact hmain.1
      · exact h k

theorem ledgerRun_nonneg (st : Bank) (h : ∀ i, 0 ≤ (st i).balance)
    (ops : List LedgerOp) : ∀ i, 0 ≤ (ledgerRun st ops i).balance := by
  induction ops generalizing st with
  | nil => exact h
  | cons op ops ih => exact ih _ (ledgerStep_nonneg st h op)

theorem stateWithdraw_refused (a : Account) (amt : Int) (h : a.balance < amt) :
    (stateWithdraw a amt).1 = false := by
  unfold stateWithdraw activeWithdraw
  split_ifs <;> simp_all

theorem stateTransfer_refused (a b : Account) (amt : Int) (h : a.balance < amt) :
    (stateTransfer a b amt).1 = false := by
  unfold stateTransfer activeTransfer
  split_ifs <;> simp_all

theorem selfTransfer_refused (a : Account) (amt : Int) (h : a.balance < amt) :
    (selfTransfer a amt).1 = false := by
  unfold selfTransfer
  split_ifs <;> simp_all

/-- C1: through the account state machine, withdrawals and transfers-out are
refused whenever the requested amount exceeds the current balance, and every
sequence of deposit/withdraw/transfer operations keeps every account's balance
non-negative. -/
theorem c1_balance_invariant (st : Bank) (hinit : ∀ i, 0 ≤ (st i).balance)
    (ops : List LedgerOp) :
    (∀ i, 0 ≤ (ledgerRun st ops i).balance) ∧
    (∀ (a b : Account) (amt : Int), a.balance < amt →
      (stateWithdraw a amt).1 = false ∧ (stateTransfer a b amt).1 = false ∧
      (selfTransfer a amt).1 = false) := by
  refine ⟨ledgerRun_nonneg st hinit ops, fun a b amt h => ?_⟩
  exact ⟨stateWithdraw_refused a amt h, stateTransfer_refused a b amt h,
    selfTransfer_refused a amt h⟩

/-- Witness for C1 at a concrete bank and operation sequence. -/
theorem c1_balance_invariant_witness :
    (∀ i, 0 ≤ (ledgerRun (fun _ => ⟨100, .active, 10⟩)
      [.deposit 0 50, .withdraw 0 120, .transfer 0 1 30] i).balance) ∧
    (∀ (a b : Account) (amt : Int), a.balance < amt →
      (stateWithdraw a amt).1 = false ∧ (stateTransfer a b amt).1 = false ∧
      (selfTransfer a amt).1 = false) :=
  c1_balance_invariant (fun _ => ⟨100, .active, 10⟩)
    (fun _ => by show (0 : Int) ≤ 100; decide)
    [.deposit 0 50, .withdraw 0 120, .transfer 0 1 30]

/-- C2: the state-machine transfer is atomic: on failure both the source
balance and the destination account are exactly as before the call, and on
success the source balance drops by exactly the amount while the destination
balance rises by exactly the amount (no partial transfer is observable). -/
theorem c2_transfer_atomic (src dst : Account) (amt : Int) :
    ((stateTransfer src dst amt).1 = false →
      (stateTransfer src dst amt).2.1.balance = src.balance ∧
      (stateTransfer src dst amt).2.2 = dst) ∧
    ((stateTransfer src dst amt).1 = true →
      (stateTransfer src dst amt).2.1.balance = src.balance - amt ∧
      (stateTransfer src dst amt).2.2.balance = dst.balance + amt) := by
  unfold stateTransfer activeTransfer stateDeposit activeDeposit overdrawnDeposit
  split_ifs <;> simp_all <;> omega

/-- Witness for C2: a successful transfer moves exactly the amount, at a
concrete pair of accounts. -/
theorem c2_transfer_atomic_witness :
    (stateTransfer ⟨100, .active, 0⟩ ⟨5, .overdrawn, 50⟩ 40).2.1.balance = 100 - 40 ∧
    (stateTransfer ⟨100, .active, 0⟩ ⟨5, .overdrawn, 50⟩ 40).2.2.balance = 5 + 40 :=
  (c2_transfer_atomic ⟨100, .active, 0⟩ ⟨5, .overdrawn, 50⟩ 40).2 (by decide)

/-- Transaction status column: PENDING, COMPLETED, FAILED, REVERSED. -/
inductive TxStatus
  | pending
  | completed
  | failed
  | reversed
deriving DecidableEq, Repr

/-- `Account.deposit` from `account.py`: raises `ValueError` on a non-positive
amount, otherwise adds to the balance (no status change). -/
def pyDeposit (a : Account) (amount : Int) : Except String Account :=
  if amount ≤ 0 then .error "Deposit amount must be positive"
  else .ok { a with balance := a.balance + amount }

/-- `Account.withdraw` from `account.py`: raises on a non-positive amount or
insufficient balance; drops the status to OVERDRAWN when the new balance is
below the minimum balance. -/
def pyWithdraw (a : Account) (amount : Int) : Except String Account :=
  if amount ≤ 0 then .error "Withdrawal amount must be positive"
  else if a.balance < amount then .error "Insufficient balance"
  else
    let b := a.balance - amount
    let st : AccountStatus := if b < a.minBalance then .overdrawn else a.status
    .ok { a with balance := b, status := st }

/-- `Account.transfer` from `account.py`: guard, withdraw from self, then
deposit into the destination; any raise aborts. -/
def pyTransfer (src dst : Account) (amount : Int) :
    Except String (Account × Account) :=
  if amount ≤ 0 then .error "Transfer amount must be positive"
  else if src.balance < amount then .error "Insufficient balance"
  else
    match pyWithdraw src amount with
    | .error e => .error e
    | .ok src' =>
      match pyDeposit dst amount with
      | .error e => .error e
      | .ok dst' => .ok (src', dst')

/-- The fields of the transfer transaction record that the undo path reads:
its amount and its status. -/
structure TransferTx where
  amount : Int
  status : TxStatus
deriving DecidableEq, Repr

/-- The observable state of a `TransferCommand` call: result flag, both
accounts, and `self.transaction`. -/
structure TransferCmd where
  success : Bool
  src : Account
  dst : Account
  tx : Option TransferTx
deriving DecidableEq, Repr

/-- `TransferCommand.execute` from `command.py`: refuse a non-ACTIVE source or
destination and insufficient balance; otherwise create a PENDING record, run
`Account.transfer`, and mark the record COMPLETED. An exception rolls the
session back: accounts unchanged, the record never persisted (left PENDING in
memory). -/
def transferExecute (src dst : Account) (amount : Int) : TransferCmd :=
  if src.status ≠ .active then ⟨false, src, dst, none⟩
  else if dst.status ≠ .active then ⟨false, src, dst, none⟩
  else if src.balance < amount then ⟨false, src, dst, none⟩
  else
    match pyTransfer src dst amount with
    | .ok (src', dst') => ⟨true, src', dst', some ⟨amount, .completed⟩⟩
    | .error _ => ⟨false, src, dst, some ⟨amount, .pending⟩⟩

/-- `TransferCommand.undo` from `command.py` plus `Transaction.reverse` from
`transaction.py`: require a COMPLETED record, withdraw the amount back from the
destination and deposit it into the source, and mark the record REVERSED; an
exception rolls everything back. -/
def transferUndo (c : TransferCmd) : Bool × TransferCmd :=
  match c.tx with
  | none => (false, c)
  | some tx =>
    if tx.status ≠ .completed then (false, c)
    else
      match pyWithdraw c.dst tx.amount with
      | .error _ => (false, c)
      | .ok dst' =>
        match pyDeposit c.src tx.amount with
        | .error _ => (false, c)
        | .ok src' => (true, ⟨c.success, src', dst', some { tx with status := .reversed }⟩)

theorem transferExecute_success_cond (src dst : Account) (amt : Int)
    (hex : (transferExecute src dst amt).success = true) :
    src.status = .active ∧ dst.status = .active ∧ 0 < amt ∧ amt ≤ src.balance := by
  unfold transferExecute pyTransfer pyWithdraw pyDeposit at hex
  split_ifs at hex <;> simp_all <;> omega

theorem transferExecute_eq (src dst : Account) (amt : Int)
    (h1 : src.status = .active) (h2 : dst.status = .active)
    (h3 : 0 < amt) (h4 : amt ≤ src.balance) :
    transferExecute src dst amt =
      ⟨true,
       { src with balance := src.balance - amt,
                  status := if src.balance - amt < src.minBalance then .overdrawn
                            else src.status },
       { dst with balance := dst.balance + amt },
       some ⟨amt, .completed⟩⟩ := by
  unfold transferExecute pyTransfer pyWithdraw pyDeposit
  split_ifs <;> simp_all <;> omega

theorem transferUndo_not_completed (c : TransferCmd)
    (h : ∀ tx, c.tx = some tx → tx.status ≠ .completed) :
    transferUndo c = (false, c) := by
  unfold transferUndo
  match hc : c.tx with
  | none => simp
  | some tx =>
    have := h tx hc
    simp [this]

/-- C3: undo is self-inverse: for a transfer command that executed
successfully, `undo` succeeds, restores both balances exactly to their
pre-execute values, and marks the record REVERSED; and undoing any command
whose record is absent or not COMPLETED (e.g. already REVERSED) reports
failure and changes nothing. -/
theorem c3_undo_self_inverse (src dst : Account) (amt : Int)
    (hdst : 0 ≤ dst.balance)
    (hex : (transferExecute src dst amt).success = true) :
    ((transferUndo (transferExecute src dst amt)).1 = true ∧
     (transferUndo (transferExecute src dst amt)).2.src.balance = src.balance ∧
     (transferUndo (transferExecute src dst amt)).2.dst.balance = dst.balance ∧
     (transferUndo (transferExecute src dst amt)).2.tx.map TransferTx.status =
       some .reversed) ∧
    (∀ c : TransferCmd, (∀ tx, c.tx = some tx → tx.status ≠ .completed) →
      transferUndo c = (false, c)) := by
  obtain ⟨h1, h2, h3, h4⟩ := transferExecute_success_cond src dst amt hex
  rw [transferExecute_eq src dst amt h1 h2 h3 h4]
  refine ⟨?_, transferUndo_not_completed⟩
  unfold transferUndo pyWithdraw pyDeposit
  split_ifs <;> simp_all <;> split_ifs <;> simp_all <;> omega

/-- Witness for C3 at a concrete successful transfer. -/
theorem c3_undo_self_inverse_witness :
    ((transferUndo (transferExecute ⟨80, .active, 0⟩ ⟨30, .active, 0⟩ 50)).1 = true ∧
     (transferUndo (transferExecute ⟨80, .active, 0⟩ ⟨30, .active, 0⟩ 50)).2.src.balance = 80 ∧
     (transferUndo (transferExecute ⟨80, .active, 0⟩ ⟨30, .active, 0⟩ 50)).2.dst.balance = 30 ∧
     (transferUndo (transferExecute ⟨80, .active, 0⟩ ⟨30, .active, 0⟩ 50)).2.tx.map
       TransferTx.status = some .reversed) ∧
    (∀ c : TransferCmd, (∀ tx, c.tx = some tx → tx.status ≠ .completed) →
      transferUndo c = (false, c)) :=
  c3_undo_self_inverse ⟨80, .active, 0⟩ ⟨30, .active, 0⟩ 50 (by decide) (by decide)

/-- C4 counterexample: through `TransferCommand.execute`, a transfer from an
ACTIVE source with sufficient balance into an OVERDRAWN destination does not
succeed (the command requires the destination to be ACTIVE), refuting the
claim that every such transfer succeeds and deposits the amount. -/
theorem c4_counterexample :
    ¬ ((transferExecute ⟨100, .active, 0⟩ ⟨10, .overdrawn, 50⟩ 40).success = true ∧
       (transferExecute ⟨100, .active, 0⟩ ⟨10, .overdrawn, 50⟩ 40).dst.balance
         = 10 + 40) := by
  decide

/-- C4 (amended): a transfer into an OVERDRAWN destination is permitted on the
state-machine path — for an ACTIVE source with balance ≥ amount > 0 and an
OVERDRAWN destination, `ActiveState.transfer` succeeds and deposits the amount
into the destination, matching the capability table — while the
`TransferCommand.execute` path refuses the same transfer because it requires
the destination status to be ACTIVE. -/
theorem c4_overdrawn_transfer_in (src dst : Account) (amt : Int)
    (hs : src.status = .active) (h0 : 0 < amt) (hb : amt ≤ src.balance)
    (hd : dst.status = .overdrawn) :
    ((stateTransfer src dst amt).1 = true ∧
     (stateTransfer src dst amt).2.2.balance = dst.balance + amt) ∧
    (transferExecute src dst amt).success = false := by
  constructor
  · unfold stateTransfer activeTransfer stateDeposit activeDeposit overdrawnDeposit
    split_ifs <;> simp_all <;> omega
  · unfold transferExecute
    split_ifs <;> simp_all

/-- Witness for C4's amended statement at concrete accounts. -/
theorem c4_overdrawn_transfer_in_witness :
    ((stateTransfer ⟨100, .active, 0⟩ ⟨10, .overdrawn, 50⟩ 40).1 = true ∧
     (stateTransfer ⟨100, .active, 0⟩ ⟨10, .overdrawn, 50⟩ 40).2.2.balance = 10 + 40) ∧
    (transferExecute ⟨100, .active, 0⟩ ⟨10, .overdrawn, 50⟩ 40).success = false :=
  c4_overdrawn_transfer_in ⟨100, .active, 0⟩ ⟨10, .overdrawn, 50⟩ 40
    (by decide) (by decide) (by decide) (by decide)

/-- `Config.MAX_TRANSACTION_AMOUNT` (10000.0 seconds). -/
def MAX_TRANSACTION_AMOUNT : ℚ := 10000

/-- `Config.FRAUD_RISK_THRESHOLD` (0.7). -/
def FRAUD_RISK_THRESHOLD : ℚ := 7/10

/-- The source-account data `check_transaction` reads: account id, balance,
the owner's reputation score, and the count of its outgoing transactions in
the trailing hour. -/
structure FraudSrc where
  accountId : Nat
  balance : Int
  reputation : ℚ
  recentOutCount : Nat
deriving DecidableEq, Repr

/-- The destination-account data `check_transaction` reads. -/
structure FraudDst where
  accountId : Nat
  reputation : ℚ
  recentInCount : Nat
deriving DecidableEq, Repr

/-- One invocation context of `FraudDetectionService.check_transaction`. -/
structure FraudInput where
  src : Option FraudSrc
  dst : Option FraudDst
  amount : Int
deriving DecidableEq, Repr

/-- The additive risk score of `check_transaction` in `fraud_detection.py`:
0.4 for an amount above the maximum, 0.4 for an amount above half the source
balance, 0.3 for more than 2 recent outgoing transactions, 0.3 for source
reputation below 90, 0.2 for more than 2 recent incoming transactions, 0.2 for
destination reputation below 90, plus the 0.1 baseline (floats as exact
rationals). -/
def riskScore (c : FraudInput) : ℚ :=
  (if (c.amount : ℚ) > MAX_TRANSACTION_AMOUNT then 2/5 else 0) +
  (match c.src with
   | none => 0
   | some s =>
     (if (c.amount : ℚ) > (s.balance : ℚ) * (1/2) then 2/5 else 0) +
     (if s.recentOutCount > 2 then 3/10 else 0) +
     (if s.reputation < 90 then 3/10 else 0)) +
  (match c.dst with
   | none => 0
   | some d =>
     (if d.recentInCount > 2 then 1/5 else 0) +
     (if d.reputation < 90 then 1/5 else 0)) +
  1/10

/-- `is_safe = risk_score < FRAUD_RISK_THRESHOLD`. -/
def isSafe (c : FraudInput) : Bool :=
  decide (riskScore c < FRAUD_RISK_THRESHOLD)

/-- Fraud alert status column: OPEN, RESOLVED, FALSE_POSITIVE. -/
inductive AlertStatus
  | opened
  | resolved
  | falsePositive
deriving DecidableEq, Repr

/-- A fraud alert row (the fields `check_transaction` writes). -/
structure AlertRec where
  accountId : Nat
  riskScore : ℚ
  txId : Option Nat
  status : AlertStatus
deriving DecidableEq, Repr

/-- A transaction row (the fields the fraud path writes). -/
structure TxRec where
  id : Nat
  sourceId : Option Nat
  destId : Option Nat
  amount : Int
  status : TxStatus
deriving DecidableEq, Repr

/-- The persistent store the fraud path touches. -/
structure FraudStore where
  alerts : List AlertRec
  txs : List TxRec
deriving DecidableEq, Repr

/-- Result of a `check_transaction` call: the committed snapshots produced
during the call, in commit order, the final store, and whether the
suspicious-transaction notification was sent. -/
structure FraudCheckResult where
  commits : List FraudStore
  final : FraudStore
  notified : Bool
deriving DecidableEq, Repr

/-- Persistence effects of `FraudDetectionService.check_transaction`: when the
score is unsafe and a source account exists, the code makes three successive
`db.session.commit()` calls — first the OPEN alert (not yet linked), then the
FAILED transaction record, then the alert updated with the transaction id —
and finally notifies. `newTxId` models the id the database assigns to the
inserted transaction row. -/
def checkTransaction (db0 : FraudStore) (c : FraudInput) (newTxId : Nat) :
    FraudCheckResult :=
  if isSafe c then ⟨[], db0, false⟩
  else
    match c.src with
    | none => ⟨[], db0, false⟩
    | some s =>
      let alert : AlertRec := ⟨s.accountId, riskScore c, none, .opened⟩
      let db1 : FraudStore := ⟨db0.alerts ++ [alert], db0.txs⟩
      let tx : TxRec :=
        ⟨newTxId, some s.accountId, c.dst.map FraudDst.accountId, c.amount, .failed⟩
      let db2 : FraudStore := ⟨db1.alerts, db1.txs ++ [tx]⟩
      let db3 : FraudStore :=
        ⟨db0.alerts ++ [{ alert with txId := some newTxId }], db2.txs⟩
      ⟨[db1, db2, db3], db3, true⟩

/-- The all-or-none property C5 claims of the fraud path: every committed
snapshot either is the unchanged pre-call store or already contains both an
OPEN alert and a FAILED transaction linked to it. -/
def fraudAllOrNone (db0 : FraudStore) (c : FraudInput) (newTxId : Nat) : Prop :=
  ∀ d ∈ (checkTransaction db0 c newTxId).commits,
    d = db0 ∨
    ∃ a ∈ d.alerts, ∃ t ∈ d.txs,
      a.status = .opened ∧ t.status = .failed ∧ a.txId = some t.id

/-- A concrete unsafe check context with a source account (amount 15000 from
balance 20000, reputation 85). -/
def c5ctx : FraudInput := ⟨some ⟨1, 20000, 85, 0⟩, some ⟨2, 95, 0⟩, 15000⟩

theorem riskScore_c5ctx : riskScore c5ctx = 12/10 := by
  norm_num [riskScore, c5ctx, MAX_TRANSACTION_AMOUNT]

theorem isSafe_c5ctx : isSafe c5ctx = false := by
  simp only [isSafe, riskScore_c5ctx, FRAUD_RISK_THRESHOLD, decide_eq_false_iff_not,
    not_lt]
  norm_num

theorem checkTransaction_c5ctx :
    (checkTransaction ⟨[], []⟩ c5ctx 7).commits =
      [⟨[⟨1, riskScore c5ctx, none, .opened⟩], []⟩,
       ⟨[⟨1, riskScore c5ctx, none, .opened⟩],
        [⟨7, some 1, some 2, 15000, .failed⟩]⟩,
       ⟨[⟨1, riskScore c5ctx, some 7, .opened⟩],
        [⟨7, some 1, some 2, 15000, .failed⟩]⟩] := by
  unfold checkTransaction
  rw [isSafe_c5ctx]
  simp [c5ctx]

/-- C5 counterexample: on an empty store, the unsafe-path commits are not
all-or-none — the first committed snapshot persists the alert with no linked
transaction record, so an intermediate state is observable. -/
theorem c5_counterexample : ¬ fraudAllOrNone ⟨[], []⟩ c5ctx 7 := by
  unfold fraudAllOrNone
  intro h
  have h1 := h ⟨[⟨1, riskScore c5ctx, none, .opened⟩], []⟩
    (by rw [checkTransaction_c5ctx]; simp)
  rcases h1 with h1 | ⟨a, ha, t, ht, hx⟩
  · have := congrArg FraudStore.alerts h1
    simp at this
  · simp at ht

/-- C5 (amended): when the check is unsafe and a source account exists, the
code does create the FAILED transaction record, the OPEN alert linked to it,
and the notification, but through three separate successive commits — the
first committed snapshot holds the alert unlinked with no transaction record,
the second adds the FAILED transaction, and only the third links the alert. -/
theorem c5_three_commit_sequence (db0 : FraudStore) (c : FraudInput)
    (newTxId : Nat) (s : FraudSrc) (hflag : isSafe c = false)
    (hsrc : c.src = some s) :
    (checkTransaction db0 c newTxId).commits =
      [⟨db0.alerts ++ [⟨s.accountId, riskScore c, none, .opened⟩], db0.txs⟩,
       ⟨db0.alerts ++ [⟨s.accountId, riskScore c, none, .opened⟩],
        db0.txs ++ [⟨newTxId, some s.accountId, c.dst.map FraudDst.accountId,
          c.amount, .failed⟩]⟩,
       ⟨db0.alerts ++ [⟨s.accountId, riskScore c, some newTxId, .opened⟩],
        db0.txs ++ [⟨newTxId, some s.accountId, c.dst.map FraudDst.accountId,
          c.amount, .failed⟩]⟩] ∧
    (checkTransaction db0 c newTxId).final =
      ⟨db0.alerts ++ [⟨s.accountId, riskScore c, some newTxId, .opened⟩],
       db0.txs ++ [⟨newTxId, some s.accountId, c.dst.map FraudDst.accountId,
         c.amount, .failed⟩]⟩ ∧
    (checkTransaction db0 c newTxId).notified = true := by
  simp [checkTransaction, hflag, hsrc]

/-- Witness for C5's amended statement on a concrete store and context. -/
theorem c5_three_commit_sequence_witness :
    (checkTransaction ⟨[], []⟩ c5ctx 7).commits =
      [⟨[⟨1, riskScore c5ctx, none, .opened⟩], []⟩,
       ⟨[⟨1, riskScore c5ctx, none, .opened⟩],
        [⟨7, some 1, some 2, 15000, .failed⟩]⟩,
       ⟨[⟨1, riskScore c5ctx, some 7, .opened⟩],
        [⟨7, some 1, some 2, 15000, .failed⟩]⟩] ∧
    (checkTransaction ⟨[], []⟩ c5ctx 7).final =
      ⟨[⟨1, riskScore c5ctx, some 7, .opened⟩],
       [⟨7, some 1, some 2, 15000, .failed⟩]⟩ ∧
    (checkTransaction ⟨[], []⟩ c5ctx 7).notified = true :=
  c5_three_commit_sequence ⟨[], []⟩ c5ctx 7 ⟨1, 20000, 85, 0⟩ isSafe_c5ctx rfl

/-- The C6 scenario context: transfer of 15000 seconds from a source with
balance 20000 and owner reputation 85, no recent transactions on either side
and no destination-side risk factors. -/
def c6ctx : FraudInput := ⟨some ⟨1, 20000, 85, 0⟩, some ⟨2, 95, 0⟩, 15000⟩

theorem riskScore_c6ctx : riskScore c6ctx = 12/10 := by
  norm_num [riskScore, c6ctx, MAX_TRANSACTION_AMOUNT]

theorem isSafe_c6ctx : isSafe c6ctx = false := by
  simp only [isSafe, riskScore_c6ctx, FRAUD_RISK_THRESHOLD, decide_eq_false_iff_not,
    not_lt]
  norm_num

/-- C6 counterexample: the scenario's risk score is not 0.9 — the code also
adds the 0.3 low-reputation factor since 85 < 90. -/
theorem c6_counterexample : ¬ (riskScore c6ctx = 9/10) := by
  rw [riskScore_c6ctx]
  norm_num

/-- C6 (amended): the scenario yields riskScore 1.2 (0.4 oversize + 0.4
rapid-depletion + 0.3 low reputation + 0.1 baseline), which is unsafe, and a
fraud alert is created. -/
theorem c6_scenario_score :
    riskScore c6ctx = 12/10 ∧ isSafe c6ctx = false ∧
    (checkTransaction ⟨[], []⟩ c6ctx 1).final.alerts =
      [⟨1, 12/10, some 1, .opened⟩] := by
  refine ⟨riskScore_c6ctx, isSafe_c6ctx, ?_⟩
  unfold checkTransaction
  rw [isSafe_c6ctx]
  simp [c6ctx]
  exact riskScore_c6ctx

/-- Python `int()` truncation toward zero on a rational. -/
def intTrunc (q : ℚ) : Int := if q < 0 then ⌈q⌉ else ⌊q⌋

/-- Loan status column: ACTIVE, PAID, DEFAULTED. -/
inductive LoanStatus
  | active
  | paid
  | defaulted
deriving DecidableEq, Repr

/-- A loan row (the fields the payment path reads and writes). -/
structure Loan where
  amount : Int
  interestRate : ℚ
  termDays : Int
  remainingAmount : Int
  status : LoanStatus
deriving DecidableEq, Repr

/-- `Loan.make_payment` from `loan.py`: requires ACTIVE and a positive
payment; a payment above the remaining amount is clamped to it; the remainder
is decremented and the loan becomes PAID when it hits 0. -/
def makePayment (l : Loan) (payment : Int) : Except String Loan :=
  if l.status ≠ .active then .error "Cannot make payment on a non-active loan"
  else if payment ≤ 0 then .error "Payment amount must be positive"
  else
    let p := if payment > l.remainingAmount then l.remainingAmount else payment
    let r := l.remainingAmount - p
    let st : LoanStatus := if r = 0 then .paid else l.status
    .ok { l with remainingAmount := r, status := st }

/-- Repayment strategy variants from `loan_strategy.py`: FIXED; DYNAMIC with
its early-payment flag (`utcnow < due_date - term/2 days`); EARLY with the
elapsed-term fraction (`days_remaining / term_days`). -/
inductive Strategy
  | fixedRate
  | dynamicRate (earlyBonus : Bool)
  | earlyRepayment (termFraction : ℚ)

/-- `apply_payment` of the three strategies: FIXED passes through; DYNAMIC
raises the effective payment by 5% when paid before the term midpoint; EARLY
discounts the remaining amount by 15/10/5% before applying a full payoff, the
discount chosen by the elapsed-term fraction. -/
def applyPayment : Strategy → Loan → Int → Except String Loan
  | .fixedRate, l, p => makePayment l p
  | .dynamicRate e, l, p =>
    makePayment l (if e then intTrunc ((p : ℚ) * (105/100)) else p)
  | .earlyRepayment tf, l, p =>
    let l1 : Loan :=
      if p ≥ l.remainingAmount ∧ tf > 1/4 then
        if tf ≥ 3/4 then
          { l with remainingAmount := intTrunc ((l.remainingAmount : ℚ) * (85/100)) }
        else if tf ≥ 1/2 then
          { l with remainingAmount := intTrunc ((l.remainingAmount : ℚ) * (9/10)) }
        else
          { l with remainingAmount := intTrunc ((l.remainingAmount : ℚ) * (95/100)) }
      else l
    makePayment l1 p

/-- `LoanService.make_payment` from `loan_service.py`: refuse when the account
balance is below the payment; otherwise apply the strategy payment to the loan
and deduct the full payment amount from the account balance; an exception
rolls everything back. -/
def serviceMakePayment (s : Strategy) (l : Loan) (acct : Account) (p : Int) :
    Bool × Loan × Account :=
  if acct.balance < p then (false, l, acct)
  else
    match applyPayment s l p with
    | .error _ => (false, l, acct)
    | .ok l' => (true, l', { acct with balance := acct.balance - p })

theorem intTrunc_scale_nonneg_le (r : Int) (c : ℚ) (hr : 0 ≤ r)
    (hc0 : 0 ≤ c) (hc1 : c ≤ 1) :
    0 ≤ intTrunc ((r : ℚ) * c) ∧ intTrunc ((r : ℚ) * c) ≤ r := by
  have hq0 : (0 : ℚ) ≤ (r : ℚ) * c := by positivity
  have hq1 : (r : ℚ) * c ≤ (r : ℚ) :=
    mul_le_of_le_one_right (by exact_mod_cast hr) hc1
  unfold intTrunc
  rw [if_neg (not_lt.mpr hq0)]
  constructor
  · exact Int.le_floor.mpr (by exact_mod_cast hq0)
  · exact_mod_cast le_trans (Int.floor_le _) hq1

theorem makePayment_ok (l : Loan) (p : Int) (l' : Loan)
    (hrem : 0 ≤ l.remainingAmount) (h : makePayment l p = .ok l') :
    l'.remainingAmount ≤ l.remainingAmount ∧ 0 ≤ l'.remainingAmount ∧
    (l'.remainingAmount = 0 → l'.status = .paid) := by
  unfold makePayment at h
  split_ifs at h with h1 h2 h3 <;> simp_all <;> subst h <;> simp_all <;> omega

/-- C7: under every repayment strategy (Fixed, Dynamic, Early), a successful
payment application never increases a loan's remaining amount, never drives it
below 0 (overpayments are clamped), and leaves the loan PAID whenever the
remaining amount reaches 0; a failed application changes nothing (the service
rolls the session back). -/
theorem c7_remaining_monotone (s : Strategy) (l : Loan) (p : Int)
    (hrem : 0 ≤ l.remainingAmount) :
    ∀ l', applyPayment s l p = .ok l' →
      l'.remainingAmount ≤ l.remainingAmount ∧ 0 ≤ l'.remainingAmount ∧
      (l'.remainingAmount = 0 → l'.status = .paid) := by
  intro l' h
  cases s with
  | fixedRate => exact makePayment_ok l p l' hrem h
  | dynamicRate e => exact makePayment_ok l _ l' hrem h
  | earlyRepayment tf =>
    simp only [applyPayment] at h
    split_ifs at h with h1 h2 h3
    · have hb := intTrunc_scale_nonneg_le l.remainingAmount (85/100) hrem
        (by norm_num) (by norm_num)
      have := makePayment_ok _ p l' (by simpa using hb.1) h
      simp at this
      exact ⟨le_trans this.1 hb.2, this.2⟩
    · have hb := intTrunc_scale_nonneg_le l.remainingAmount (9/10) hrem
        (by norm_num) (by norm_num)
      have := makePayment_ok _ p l' (by simpa using hb.1) h
      simp at this
      exact ⟨le_trans this.1 hb.2, this.2⟩
    · have hb := intTrunc_scale_nonneg_le l.remainingAmount (95/100) hrem
        (by norm_num) (by norm_num)
      have := makePayment_ok _ p l' (by simpa using hb.1) h
      simp at this
      exact ⟨le_trans this.1 hb.2, this.2⟩
    · exact makePayment_ok l p l' hrem h

/-- Witness for C7 at a concrete Fixed-strategy payment of 200 against a
remaining amount of 500 (result: 300 remaining, still active). -/
theorem c7_remaining_monotone_witness :
    (⟨1000, 0, 100, 300, .active⟩ : Loan).remainingAmount ≤
      (⟨1000, 0, 100, 500, .active⟩ : Loan).remainingAmount ∧
    0 ≤ (⟨1000, 0, 100, 300, .active⟩ : Loan).remainingAmount ∧
    ((⟨1000, 0, 100, 300, .active⟩ : Loan).remainingAmount = 0 →
      (⟨1000, 0, 100, 300, .active⟩ : Loan).status = .paid) :=
  c7_remaining_monotone .fixedRate ⟨1000, 0, 100, 500, .active⟩ 200 (by norm_num)
    ⟨1000, 0, 100, 300, .active⟩ (by rfl)

/-- C10: on an ACTIVE Fixed-strategy loan, a payment strictly greater than the
remaining amount with sufficient account balance succeeds, marks the loan PAID
with remaining 0, and deducts the full payment amount from the account — the
excess over the remaining amount is neither applied nor refunded. -/
theorem c10_overpayment_swallowed (l : Loan) (acct : Account) (p : Int)
    (hact : l.status = .active) (hrem : 0 ≤ l.remainingAmount)
    (hp : l.remainingAmount < p) (hb : p ≤ acct.balance) :
    serviceMakePayment .fixedRate l acct p =
      (true, { l with remainingAmount := 0, status := .paid },
       { acct with balance := acct.balance - p }) := by
  unfold serviceMakePayment applyPayment makePayment
  split_ifs <;> simp_all <;> first
  | omega
  | (split_ifs <;> simp_all <;> omega)

/-- Witness for C10: paying 800 on a loan with 500 remaining from a balance of
1000 leaves the loan PAID and the balance at 200. -/
theorem c10_overpayment_swallowed_witness :
    serviceMakePayment .fixedRate ⟨1000, 5/100, 100, 500, .active⟩ ⟨1000, .active, 0⟩ 800 =
      (true, ⟨1000, 5/100, 100, 0, .paid⟩, ⟨1000 - 800, .active, 0⟩) :=
  c10_overpayment_swallowed ⟨1000, 5/100, 100, 500, .active⟩ ⟨1000, .active, 0⟩ 800
    rfl (by norm_num) (by norm_num) (by norm_num)

/-- Investment status column: ACTIVE, MATURED, WITHDRAWN. -/
inductive InvStatus
  | active
  | matured
  | withdrawn
deriving DecidableEq, Repr

/-- An investment row; `maturityDate` (and the `now` arguments below) model
UTC timestamps. -/
structure Investment where
  amount : Int
  interestRate : ℚ
  termDays : Int
  status : InvStatus
  maturityDate : Int
deriving DecidableEq, Repr

/-- `Investment.calculate_return` from `loan.py`: amount·(1+rate) scaled by
the term multiplier 1 + (termDays/30)·0.02, truncated to an integer. -/
def calculateReturn (inv : Investment) : Int :=
  intTrunc ((inv.amount : ℚ) * (1 + inv.interestRate) *
    (1 + (inv.termDays : ℚ) / 30 * (2/100)))

/-- `Investment.withdraw` from `loan.py`: requires ACTIVE; before the maturity
date it returns only the principal and sets WITHDRAWN, otherwise it returns
`calculate_return()` and sets MATURED. -/
def investmentWithdraw (inv : Investment) (now : Int) :
    Except String (Investment × Int) :=
  if inv.status ≠ .active then
    .error "Investment has already been withdrawn or is not active"
  else if now < inv.maturityDate then
    .ok ({ inv with status := .withdrawn }, inv.amount)
  else
    .ok ({ inv with status := .matured }, calculateReturn inv)

/-- `InvestmentService.withdraw_investment` from `investment_service.py`: run
`Investment.withdraw`, then `Account.deposit` the returned amount into the
owner's account; a raised `ValueError` yields a failure result with no balance
change. -/
def withdrawInvestment (inv : Investment) (acct : Account) (now : Int) :
    Bool × Investment × Account :=
  match investmentWithdraw inv now with
  | .error _ => (false, inv, acct)
  | .ok (inv', ret) =>
    match pyDeposit acct ret with
    | .error _ => (false, inv', acct)
    | .ok acct' => (true, inv', acct')

/-- The per-record body of `InvestmentService.check_matured_investments`: an
ACTIVE investment whose maturity date has passed becomes MATURED, with no
balance effect. -/
def checkMaturedOne (inv : Investment) (now : Int) : Investment :=
  if inv.status = .active ∧ inv.maturityDate ≤ now then { inv with status := .matured }
  else inv

theorem le_calculateReturn (inv : Investment) (h : 0 ≤ inv.amount)
    (hr : 0 ≤ inv.interestRate) (ht : 0 ≤ inv.termDays) :
    inv.amount ≤ calculateReturn inv := by
  have ha : (0 : ℚ) ≤ (inv.amount : ℚ) := by exact_mod_cast h
  have htq : (0 : ℚ) ≤ (inv.termDays : ℚ) := by exact_mod_cast ht
  have h1 : (1 : ℚ) ≤ 1 + inv.interestRate := by linarith
  have h2 : (1 : ℚ) ≤ 1 + (inv.termDays : ℚ) / 30 * (2/100) := by
    have : (0 : ℚ) ≤ (inv.termDays : ℚ) / 30 * (2/100) := by positivity
    linarith
  have s1 : (inv.amount : ℚ) ≤ (inv.amount : ℚ) * (1 + inv.interestRate) :=
    le_mul_of_one_le_right ha h1
  have s2 : (inv.amount : ℚ) * (1 + inv.interestRate) ≤
      (inv.amount : ℚ) * (1 + inv.interestRate) *
        (1 + (inv.termDays : ℚ) / 30 * (2/100)) :=
    le_mul_of_one_le_right (mul_nonneg ha (by linarith)) h2
  have hq : (inv.amount : ℚ) ≤ (inv.amount : ℚ) * (1 + inv.interestRate) *
      (1 + (inv.termDays : ℚ) / 30 * (2/100)) := le_trans s1 s2
  have h0 : (0 : ℚ) ≤ (inv.amount : ℚ) * (1 + inv.interestRate) *
      (1 + (inv.termDays : ℚ) / 30 * (2/100)) := le_trans ha hq
  unfold calculateReturn intTrunc
  rw [if_neg (not_lt.mpr h0)]
  exact Int.le_floor.mpr hq

/-- C8: `Investment.withdraw` requires ACTIVE and is one-shot: before the
maturity date it returns exactly the principal and sets WITHDRAWN; at or after
maturity it returns `calculate_return()` and sets MATURED; any call on a
non-ACTIVE investment errors; and through the service a second withdrawal
fails and leaves both investment and account balance unchanged, so the
balance changes only once. -/
theorem c8_investment_one_shot (inv : Investment) (acct : Account)
    (now now2 : Int) (hact : inv.status = .active) (hamt : 0 < inv.amount)
    (hrate : 0 ≤ inv.interestRate) (hterm : 0 ≤ inv.termDays) :
    (now < inv.maturityDate →
      investmentWithdraw inv now =
        .ok ({ inv with status := .withdrawn }, inv.amount)) ∧
    (inv.maturityDate ≤ now →
      investmentWithdraw inv now =
        .ok ({ inv with status := .matured }, calculateReturn inv)) ∧
    (∀ j : Investment, j.status ≠ .active → ∀ t,
      (investmentWithdraw j t).toOption = none) ∧
    ((withdrawInvestment inv acct now).1 = true ∧
     withdrawInvestment (withdrawInvestment inv acct now).2.1
       (withdrawInvestment inv acct now).2.2 now2 =
       (false, (withdrawInvestment inv acct now).2.1,
        (withdrawInvestment inv acct now).2.2)) := by
  have hcr : 0 < calculateReturn inv :=
    lt_of_lt_of_le hamt (le_calculateReturn inv (le_of_lt hamt) hrate hterm)
  refine ⟨fun h => ?_, fun h => ?_, fun j hj t => ?_, ?_⟩
  · unfold investmentWithdraw
    rw [if_neg (by simp [hact]), if_pos h]
  · unfold investmentWithdraw
    rw [if_neg (by simp [hact]), if_neg (not_lt.mpr h)]
  · unfold investmentWithdraw
    rw [if_pos hj]
    rfl
  · have hdep : ∀ r : Int, 0 < r →
        pyDeposit acct r = .ok { acct with balance := acct.balance + r } := by
      intro r hr
      unfold pyDeposit
      rw [if_neg (by omega)]
    by_cases hn : now < inv.maturityDate
    · have hfirst : withdrawInvestment inv acct now =
          (true, { inv with status := .withdrawn },
           { acct with balance := acct.balance + inv.amount }) := by
        unfold withdrawInvestment investmentWithdraw
        rw [if_neg (by simp [hact]), if_pos hn]
        simp [hdep inv.amount hamt]
      rw [hfirst]
      refine ⟨rfl, ?_⟩
      unfold withdrawInvestment investmentWithdraw
      rw [if_pos (by simp)]
    · have hfirst : withdrawInvestment inv acct now =
          (true, { inv with status := .matured },
           { acct with balance := acct.balance + calculateReturn inv }) := by
        unfold withdrawInvestment investmentWithdraw
        rw [if_neg (by simp [hact]), if_neg hn]
        simp [hdep _ hcr]
      rw [hfirst]
      refine ⟨rfl, ?_⟩
      unfold withdrawInvestment investmentWithdraw
      rw [if_pos (by simp)]

/-- Witness for C8: the spec scenario — principal 36000 seconds, rate 0.02,
term 60 days, withdrawn before maturity. -/
theorem c8_investment_one_shot_witness :
    (50 < (100 : Int) →
      investmentWithdraw ⟨36000, 1/50, 60, .active, 100⟩ 50 =
        .ok (⟨36000, 1/50, 60, .withdrawn, 100⟩, 36000)) ∧
    ((100 : Int) ≤ 50 →
      investmentWithdraw ⟨36000, 1/50, 60, .active, 100⟩ 50 =
        .ok (⟨36000, 1/50, 60, .matured, 100⟩,
          calculateReturn ⟨36000, 1/50, 60, .active, 100⟩)) ∧
    (∀ j : Investment, j.status ≠ .active → ∀ t,
      (investmentWithdraw j t).toOption = none) ∧
    ((withdrawInvestment ⟨36000, 1/50, 60, .active, 100⟩ ⟨0, .active, 0⟩ 50).1 = true ∧
     withdrawInvestment
       (withdrawInvestment ⟨36000, 1/50, 60, .active, 100⟩ ⟨0, .active, 0⟩ 50).2.1
       (withdrawInvestment ⟨36000, 1/50, 60, .active, 100⟩ ⟨0, .active, 0⟩ 50).2.2 60 =
       (false,
        (withdrawInvestment ⟨36000, 1/50, 60, .active, 100⟩ ⟨0, .active, 0⟩ 50).2.1,
        (withdrawInvestment ⟨36000, 1/50, 60, .active, 100⟩ ⟨0, .active, 0⟩ 50).2.2)) :=
  c8_investment_one_shot ⟨36000, 1/50, 60, .active, 100⟩ ⟨0, .active, 0⟩ 50 60
    rfl (by norm_num) (by norm_num) (by norm_num)

/-- C9: once the maturity sweep has marked an ACTIVE investment with
maturityDate ≤ now as MATURED, every subsequent `withdraw_investment` call
fails and leaves the investment and the account unchanged — iterating any
sequence of further calls never changes either, so the matured return is never
credited through the public withdraw operation. -/
theorem c9_matured_sweep_locks (inv : Investment) (now : Int)
    (hact : inv.status = .active) (hmat : inv.maturityDate ≤ now) :
    (checkMaturedOne inv now).status = .matured ∧
    (∀ (acct : Account) (t : Int),
      withdrawInvestment (checkMaturedOne inv now) acct t =
        (false, checkMaturedOne inv now, acct)) ∧
    (∀ (ts : List Int) (acct : Account),
      ts.foldl (fun st t => (withdrawInvestment st.1 st.2 t).2)
        (checkMaturedOne inv now, acct) = (checkMaturedOne inv now, acct)) := by
  have hm : checkMaturedOne inv now = { inv with status := .matured } := by
    unfold checkMaturedOne
    rw [if_pos ⟨hact, hmat⟩]
  have hw : ∀ (acct : Account) (t : Int),
      withdrawInvestment (checkMaturedOne inv now) acct t =
        (false, checkMaturedOne inv now, acct) := by
    intro acct t
    rw [hm]
    unfold withdrawInvestment investmentWithdraw
    rw [if_pos (by simp)]
  refine ⟨by rw [hm], hw, fun ts => ?_⟩
  induction ts with
  | nil => intro acct; rfl
  | cons t ts ih =>
    intro acct
    have : (withdrawInvestment (checkMaturedOne inv now) acct t).2 =
        (checkMaturedOne inv now, acct) := by rw [hw]
    simpa [List.foldl_cons, this] using ih acct

/-- Witness for C9 at a concrete matured investment. -/
theorem c9_matured_sweep_locks_witness :
    (checkMaturedOne ⟨36000, 1/50, 60, .active, 100⟩ 120).status = .matured ∧
    (∀ (acct : Account) (t : Int),
      withdrawInvestment (checkMaturedOne ⟨36000, 1/50, 60, .active, 100⟩ 120) acct t =
        (false, checkMaturedOne ⟨36000, 1/50, 60, .active, 100⟩ 120, acct)) ∧
    (∀ (ts : List Int) (acct : Account),
      ts.foldl (fun st t => (withdrawInvestment st.1 st.2 t).2)
        (checkMaturedOne ⟨36000, 1/50, 60, .active, 100⟩ 120, acct) =
        (checkMaturedOne ⟨36000, 1/50, 60, .active, 100⟩ 120, acct)) :=
  c9_matured_sweep_locks ⟨36000, 1/50, 60, .active, 100⟩ 120 rfl (by norm_num)

end ChronoBank
